import Mathlib

/-!
Verification of the VF747 RFID reader SDK (Python) against its
natural-language specification.

The packet codec and the protocol session of `src/VF747/protocol.py`
(together with the helpers of `src/VF747/utils.py`) are shallowly embedded
here.  Bytes are modelled as `Nat` (Python ints read from the byte
stream); the serial connection is modelled as an explicit state record
holding the unread input bytes, the bytes written so far, and the
messages surfaced through the logger (warnings and errors).  Exceptions
raised by the Python code become `Except` errors.
-/

namespace VF747

/-- Embeds `byte` from utils.py: reduces a value to one byte (mod 0x100). -/
def byte (value : Nat) : Nat := value % 0x100

/-- Embeds the hexadecimal digit produced by the Python format spec 02x for
one nibble: 0-9 become the characters 0-9, 10-15 the lowercase a-f. -/
def hex_char (n : Nat) : Char :=
  if n < 10 then Char.ofNat (48 + n) else Char.ofNat (87 + n)

/-- Embeds the two-character result of formatting one byte value (b < 256)
with the Python format spec 02x. -/
def byte_to_hex (b : Nat) : String :=
  String.mk [hex_char (b / 16 % 16), hex_char (b % 16)]

/-- Embeds Python str.upper for the ASCII strings produced here: each
character is upper-cased. -/
def str_upper (s : String) : String := String.mk (s.data.map Char.toUpper)

/-- Embeds `bytes_to_hex_string` from utils.py: each byte is rendered as two
lowercase hex digits, the concatenation is then upper-cased. -/
def bytes_to_hex_string (data : List Nat) : String :=
  str_upper (String.join (data.map byte_to_hex))

/-- Embeds the `Packet` class of protocol.py: boot code, command code and
payload bytes. -/
structure Packet where
  boot_code : Nat
  command : Nat
  packet_data : List Nat
deriving DecidableEq, Repr

namespace Packet

/-- Embeds `Packet.effective_length`: 2 + len(packet_data). -/
def effective_length (p : Packet) : Nat := 2 + p.packet_data.length

/-- Embeds `Packet.checksum`: a running byte-wise sum over
[boot_code, effective_length, command] ++ packet_data, then
byte((sum XOR 0xFF) + 1). -/
def checksum (p : Packet) : Nat :=
  let data := p.boot_code :: p.effective_length :: p.command :: p.packet_data
  let s := data.foldl (fun acc b => byte (acc + b)) 0
  byte ((s ^^^ 0xFF) + 1)

/-- Embeds `Packet.__bytes__`: the serialized frame
[boot_code, effective_length, command] ++ packet_data ++ [checksum]. -/
def toBytes (p : Packet) : List Nat :=
  p.boot_code :: p.effective_length :: p.command :: (p.packet_data ++ [p.checksum])

end Packet

/-- Modelled from the spec: the error taxonomy for failing calls.  The
repository imports a `WrongBootCodeException` from an exceptions module that
is not part of the source tree; every other failure in protocol.py is a
`RuntimeError` carrying a message, and `IndexError` is raised by Python on
an out-of-range subscript.  `readBlocked` models a blocking read on a stream
with too few bytes (such a call never returns in the Python code). -/
inductive PError where
  | wrongBootCode
  | readBlocked
  | indexError
  | runtimeError (msg : String)
  | notImplemented
deriving DecidableEq, Repr

/-- The state of one connection: the unread incoming bytes, the bytes
written so far, and the logger output (warning and error messages). -/
structure ConnState where
  input : List Nat
  output : List Nat
  warnings : List String
  errorLog : List String
deriving DecidableEq, Repr

/-- Embeds `connection.read(n)`: consume n bytes from the input stream.  The
Python serial read blocks until n bytes are available; a stream with fewer
bytes is modelled by the `readBlocked` error. -/
def connRead (n : Nat) (s : ConnState) : ConnState × Except PError (List Nat) :=
  if n ≤ s.input.length then
    ({ s with input := s.input.drop n }, Except.ok (s.input.take n))
  else (s, Except.error PError.readBlocked)

/-- Reading a single byte, used as an integer by protocol.py. -/
def readByte (s : ConnState) : ConnState × Except PError Nat :=
  match connRead 1 s with
  | (s', Except.ok bs) => (s', Except.ok (bs.headD 0))
  | (s', Except.error e) => (s', Except.error e)

/-- Embeds `connection.write(data)`: append the bytes to the output trace. -/
def connWrite (data : List Nat) (s : ConnState) : ConnState :=
  { s with output := s.output ++ data }

/-- Records a `logger.warning` call. -/
def logWarning (msg : String) (s : ConnState) : ConnState :=
  { s with warnings := s.warnings ++ [msg] }

/-- Records a `logger.error` call. -/
def logError (msg : String) (s : ConnState) : ConnState :=
  { s with errorLog := s.errorLog ++ [msg] }

/-- Embeds `VF747Protocol.send_command`: build a packet with the fixed
outgoing boot code 0x40 and write its serialized bytes. -/
def send_command (command : Nat) (param : List Nat) (s : ConnState) : ConnState :=
  connWrite (Packet.toBytes ⟨0x40, command, param⟩) s

/-- Embeds `VF747Protocol.read_return_packet`: read the boot code (failing
with the wrong-boot-code exception unless it is 0xF0 or 0xF4), the effective
length, the command, `effective_length - 2` payload bytes and the checksum
byte; on a checksum mismatch only a warning is logged and the packet is
still returned.  (For `effective_length < 2` the Python read length would be
negative, an unresolved boundary condition; `Nat` subtraction makes it 0
here.) -/
def read_return_packet (s : ConnState) : ConnState × Except PError Packet :=
  match readByte s with
  | (s1, Except.error e) => (s1, Except.error e)
  | (s1, Except.ok boot_code) =>
    if boot_code ≠ 0xF0 ∧ boot_code ≠ 0xF4 then
      (s1, Except.error PError.wrongBootCode)
    else
      match readByte s1 with
      | (s2, Except.error e) => (s2, Except.error e)
      | (s2, Except.ok effective_length) =>
        match readByte s2 with
        | (s3, Except.error e) => (s3, Except.error e)
        | (s3, Except.ok command) =>
          match connRead (effective_length - 2) s3 with
          | (s4, Except.error e) => (s4, Except.error e)
          | (s4, Except.ok data) =>
            match readByte s4 with
            | (s5, Except.error e) => (s5, Except.error e)
            | (s5, Except.ok checksum) =>
              let packet : Packet := ⟨boot_code, command, data⟩
              if packet.checksum ≠ checksum then
                (logWarning "Received wrong checksum! Data may be inconsistent!" s5,
                 Except.ok packet)
              else (s5, Except.ok packet)

/-- Embeds the if/elif chain of `VF747Protocol.set_baud_rate` selecting the
one-byte rate code (or raising RuntimeError before any I/O). -/
def baud_rate_param (baudrate : Nat) : Except PError Nat :=
  if baudrate = 600 then Except.ok 0x0
  else if baudrate = 1200 then Except.ok 0x01
  else if baudrate = 2400 then Except.ok 0x02
  else if baudrate = 4800 then Except.ok 0x03
  else if baudrate = 9600 then Except.ok 0x04
  else if baudrate = 19200 then Except.ok 0x05
  else if baudrate = 38400 then Except.ok 0x06
  else if baudrate = 57600 then Except.ok 0x07
  else if baudrate = 115200 then Except.ok 0x08
  else Except.error (PError.runtimeError "Invalid baudrate")

/-- Embeds `VF747Protocol.set_baud_rate`: select the rate code (failing
before any write for an unlisted rate), send command 0x01 with it, read the
answer and fail unless the answer carries command 0x01. -/
def set_baud_rate (baudrate : Nat) (s : ConnState) : ConnState × Except PError Unit :=
  match baud_rate_param baudrate with
  | Except.error e => (s, Except.error e)
  | Except.ok param =>
    let s := send_command 0x01 [param] s
    match read_return_packet s with
    | (s', Except.error e) => (s', Except.error e)
    | (s', Except.ok packet) =>
      if packet.command ≠ 0x01 then
        (s', Except.error (PError.runtimeError "Received wrong answer"))
      else (s', Except.ok ())

/-- Embeds `VF747Protocol.get_reader_version`: send command 0x02 with empty
payload; a mismatching answer command only logs a warning; a payload of
fewer than 4 bytes logs an error and returns None (modelled `none`);
otherwise the first four payload bytes are returned as
((hw_major, hw_minor), (sw_major, sw_minor)). -/
def get_reader_version (s : ConnState) :
    ConnState × Except PError (Option ((Nat × Nat) × (Nat × Nat))) :=
  let s := send_command 0x02 [] s
  match read_return_packet s with
  | (s', Except.error e) => (s', Except.error e)
  | (s', Except.ok packet) =>
    let s' := if packet.command ≠ 0x02 then
        logWarning "get_reader_version(): received invalid return command" s'
      else s'
    if packet.packet_data.length < 0x04 then
      (logError "get_reader_version(): packet data invalid" s', Except.ok none)
    else
      (s', Except.ok (some ((packet.packet_data.getD 0 0, packet.packet_data.getD 1 0),
                            (packet.packet_data.getD 2 0, packet.packet_data.getD 3 0))))

/-- Embeds `VF747Protocol.set_relay`: payload byte int(relay1) + (int(relay2) << 2),
command 0x03. -/
def set_relay (relay1 relay2 : Bool) (s : ConnState) : ConnState × Except PError Unit :=
  let param := (if relay1 then 1 else 0) + ((if relay2 then 1 else 0) <<< 2)
  let s := send_command 0x03 [param] s
  match read_return_packet s with
  | (s', Except.error e) => (s', Except.error e)
  | (s', Except.ok packet) =>
    if packet.command ≠ 0x03 then
      (s', Except.error (PError.runtimeError "Set Relay command failed"))
    else (s', Except.ok ())

/-- Embeds `VF747Protocol.get_relay`: send command 0x0B with empty payload,
but validate the answer against command 0x08; a payload shorter than 1 byte
fails; relay1 is bit 0 and relay2 is bit 1 of the first payload byte. -/
def get_relay (s : ConnState) : ConnState × Except PError (Bool × Bool) :=
  let s := send_command 0x0B [] s
  match read_return_packet s with
  | (s', Except.error e) => (s', Except.error e)
  | (s', Except.ok packet) =>
    if packet.command ≠ 0x08 then
      (s', Except.error (PError.runtimeError "Received wrong packet for answer"))
    else if packet.packet_data.length < 1 then
      (s', Except.error (PError.runtimeError "Return packet is invalid"))
    else
      (s', Except.ok (packet.packet_data.getD 0 0 &&& 0x01 != 0,
                      packet.packet_data.getD 0 0 &&& 0x02 != 0))

/-- Embeds `VF747Protocol.read_param`: command 0x06, empty payload; the
answer payload must be exactly 32 bytes and is returned raw. -/
def read_param (s : ConnState) : ConnState × Except PError (List Nat) :=
  let s := send_command 0x06 [] s
  match read_return_packet s with
  | (s', Except.error e) => (s', Except.error e)
  | (s', Except.ok packet) =>
    if packet.command ≠ 0x06 then
      (s', Except.error (PError.runtimeError "Received invalid packet"))
    else if packet.packet_data.length ≠ 32 then
      (s', Except.error (PError.runtimeError "Return packet has invalid data"))
    else (s', Except.ok packet.packet_data)

/-- Embeds `VF747Protocol.set_param`: command 0x09, the settings block is
passed through with no length check. -/
def set_param (param : List Nat) (s : ConnState) : ConnState × Except PError Unit :=
  let s := send_command 0x09 param s
  match read_return_packet s with
  | (s', Except.error e) => (s', Except.error e)
  | (s', Except.ok packet) =>
    if packet.command ≠ 0x09 then
      (s', Except.error (PError.runtimeError "Received invalid packet"))
    else (s', Except.ok ())

/-- Embeds `VF747Protocol.select_antenna`: command 0x0A, payload byte
0x01 << antenna. -/
def select_antenna (antenna : Nat) (s : ConnState) : ConnState × Except PError Unit :=
  let s := send_command 0x0A [0x01 <<< antenna] s
  match read_return_packet s with
  | (s', Except.error e) => (s', Except.error e)
  | (s', Except.ok packet) =>
    if packet.command ≠ 0x0A then
      (s', Except.error (PError.runtimeError "Received invalid packet"))
    else (s', Except.ok ())

/-- Embeds `VF747Protocol.restore_factory_settings`: command 0x0E, empty
payload. -/
def restore_factory_settings (s : ConnState) : ConnState × Except PError Unit :=
  let s := send_command 0x0E [] s
  match read_return_packet s with
  | (s', Except.error e) => (s', Except.error e)
  | (s', Except.ok packet) =>
    if packet.command ≠ 0x0E then
      (s', Except.error (PError.runtimeError "Received invalid packet"))
    else (s', Except.ok ())

/-- Embeds `VF747Protocol.set_auto_mode`: command 0x0F, payload byte
int(status). -/
def set_auto_mode (status : Bool) (s : ConnState) : ConnState × Except PError Unit :=
  let s := send_command 0x0F [if status then 1 else 0] s
  match read_return_packet s with
  | (s', Except.error e) => (s', Except.error e)
  | (s', Except.ok packet) =>
    if packet.command ≠ 0x0F then
      (s', Except.error (PError.runtimeError "Received invalid packet"))
    else (s', Except.ok ())

/-- Embeds `VF747Protocol.clear_memory`: command 0x10, empty payload. -/
def clear_memory (s : ConnState) : ConnState × Except PError Unit :=
  let s := send_command 0x10 [] s
  match read_return_packet s with
  | (s', Except.error e) => (s', Except.error e)
  | (s', Except.ok packet) =>
    if packet.command ≠ 0x10 then
      (s', Except.error (PError.runtimeError "Received invalid packet"))
    else (s', Except.ok ())

/-- Embeds the record-scanning while loop of `VF747Protocol.list_tag_id`,
acting on the payload after the leading total-count byte.  At each position
the byte is the word count; if the record end (1 + 2 * num_words further)
would exceed the buffer, scanning stops and what was decoded so far is
returned; otherwise the 2 * num_words tag bytes are rendered as an
uppercase hex string and the pointer moves past the record. -/
def scan_tags (data : List Nat) : List String :=
  match data with
  | [] => []
  | num_words :: rest =>
    if 2 * num_words > rest.length then []
    else bytes_to_hex_string (rest.take (2 * num_words)) ::
         scan_tags (rest.drop (2 * num_words))
termination_by data.length
decreasing_by
  simp only [List.length_cons, List.length_drop]
  omega

/-- The pure response-payload decoding of `VF747Protocol.list_tag_id`:
the first payload byte is the total tag count (subscripting an empty
payload raises IndexError in Python, modelled as `none`), the rest is
scanned for tag records. -/
def list_tag_id_decode (data : List Nat) : Option (Nat × List String) :=
  match data with
  | [] => none
  | n :: rest => some (n, scan_tags rest)

/-- The scanning loop of `list_tag_id` with an explicit iteration budget:
`scan_tags_fuel fuel data` runs at most `fuel` loop iterations and returns
`none` when the budget is exhausted before the loop finishes. -/
def scan_tags_fuel : Nat → List Nat → Option (List String)
  | 0, _ => none
  | _ + 1, [] => some []
  | fuel + 1, num_words :: rest =>
    if 2 * num_words > rest.length then some []
    else
      match scan_tags_fuel fuel (rest.drop (2 * num_words)) with
      | none => none
      | some tags => some (bytes_to_hex_string (rest.take (2 * num_words)) :: tags)

/-- Serializes a sequence of tag records in the list_tag_id response layout:
each record is its 1-byte word count followed by its tag-ID bytes, and
`tail` is whatever follows the records in the buffer. -/
def records_flat : List (Nat × List Nat) → List Nat → List Nat
  | [], tail => tail
  | (num_words, t) :: rs, tail => num_words :: (t ++ records_flat rs tail)

/-- Embeds `VF747Protocol.list_tag_id`: the request payload is the memory
bank byte, the mask start as two big-endian bytes, the mask size byte and
the mask bytes, sent with command 0xEE; the answer must carry command 0xEE
and its payload is decoded by `list_tag_id_decode`. -/
def list_tag_id (memory_bank mask_start mask_size : Nat) (mask : List Nat)
    (s : ConnState) : ConnState × Except PError (Nat × List String) :=
  let data := memory_bank :: (mask_start / 256 % 256) :: (mask_start % 256) ::
              mask_size :: mask
  let s := send_command 0xEE data s
  match read_return_packet s with
  | (s', Except.error e) => (s', Except.error e)
  | (s', Except.ok packet) =>
    if packet.command ≠ 0xEE then
      (s', Except.error (PError.runtimeError "Received invalid return"))
    else
      match list_tag_id_decode packet.packet_data with
      | none => (s', Except.error PError.indexError)
      | some r => (s', Except.ok r)

/-! ### Helper lemmas -/

theorem connRead_one_cons (b : Nat) (l out : List Nat) (w e : List String) :
    connRead 1 ⟨b :: l, out, w, e⟩ = (⟨l, out, w, e⟩, Except.ok [b]) := by
  simp [connRead]

theorem readByte_cons (b : Nat) (l out : List Nat) (w e : List String) :
    readByte ⟨b :: l, out, w, e⟩ = (⟨l, out, w, e⟩, Except.ok b) := by
  simp [readByte, connRead_one_cons]

theorem connRead_append (l l2 out : List Nat) (w e : List String) :
    connRead l.length ⟨l ++ l2, out, w, e⟩ = (⟨l2, out, w, e⟩, Except.ok l) := by
  simp [connRead, List.take_left, List.drop_left]

theorem foldl_byte (l : List Nat) :
    ∀ a : Nat, l.foldl (fun acc b => byte (acc + b)) (a % 256) = (a + l.sum) % 256 := by
  induction l with
  | nil => intro a; simp
  | cons b t ih =>
    intro a
    have h1 : byte (a % 256 + b) = (a + b) % 256 := by
      simp [byte, Nat.mod_add_mod]
    simp only [List.foldl_cons, List.sum_cons, h1]
    rw [ih (a + b)]
    omega

theorem foldl_byte_zero (l : List Nat) :
    l.foldl (fun acc b => byte (acc + b)) 0 = l.sum % 256 := by
  have h := foldl_byte l 0
  simpa using h

set_option maxRecDepth 4096 in
theorem byte_sum_complement (s : Fin 256) :
    ((s : Nat) + (((s : Nat) ^^^ 0xFF) + 1) % 256) % 256 = 0 := by
  revert s; decide

theorem read_return_packet_frame (p : Packet) (ck : Nat) (rest out : List Nat)
    (w e : List String) (hbc : p.boot_code = 0xF0 ∨ p.boot_code = 0xF4) :
    read_return_packet ⟨p.boot_code :: p.effective_length :: p.command ::
        (p.packet_data ++ ck :: rest), out, w, e⟩ =
      (⟨rest, out,
        if p.checksum ≠ ck then
          w ++ ["Received wrong checksum! Data may be inconsistent!"]
        else w, e⟩,
       Except.ok p) := by
  have hb : ¬(p.boot_code ≠ 0xF0 ∧ p.boot_code ≠ 0xF4) := by
    rcases hbc with h | h <;> simp [h]
  obtain ⟨bc, cmd, pd⟩ := p
  simp only [read_return_packet, readByte_cons, if_neg hb, Packet.effective_length,
    Nat.add_sub_cancel_left]
  rw [connRead_append pd (ck :: rest) out w e]
  simp only [readByte_cons]
  by_cases hck : Packet.checksum ⟨bc, cmd, pd⟩ = ck
  · simp [hck, logWarning]
  · simp [hck, logWarning]

theorem read_return_packet_toBytes (p : Packet) (rest out : List Nat)
    (w e : List String) (hbc : p.boot_code = 0xF0 ∨ p.boot_code = 0xF4) :
    read_return_packet ⟨p.toBytes ++ rest, out, w, e⟩ =
      (⟨rest, out, w, e⟩, Except.ok p) := by
  have h : p.toBytes ++ rest = p.boot_code :: p.effective_length :: p.command ::
      (p.packet_data ++ p.checksum :: rest) := by
    simp [Packet.toBytes]
  rw [h, read_return_packet_frame p p.checksum rest out w e hbc]
  simp

theorem checksum_spec (p : Packet) :
    p.checksum =
      (((p.boot_code + p.effective_length + p.command + p.packet_data.sum) % 256 ^^^ 0xFF)
        + 1) % 256 := by
  obtain ⟨bc, cmd, pd⟩ := p
  have h : (bc :: Packet.effective_length ⟨bc, cmd, pd⟩ :: cmd :: pd).sum =
      bc + Packet.effective_length ⟨bc, cmd, pd⟩ + cmd + pd.sum := by
    simp [List.sum_cons]; ring
  simp only [Packet.checksum]
  rw [foldl_byte_zero, h]
  simp [byte]

theorem toBytes_sum (p : Packet) :
    p.toBytes.sum =
      p.boot_code + p.effective_length + p.command + p.packet_data.sum + p.checksum := by
  obtain ⟨bc, cmd, pd⟩ := p
  simp [Packet.toBytes, List.sum_append, List.sum_cons]
  ring

theorem byte_sum_complement_nat (S : Nat) :
    (S + (((S % 256) ^^^ 0xFF) + 1) % 256) % 256 = 0 := by
  have h : ((S % 256 : Nat) + (((S % 256 : Nat) ^^^ 0xFF) + 1) % 256) % 256 = 0 :=
    byte_sum_complement ⟨S % 256, Nat.mod_lt _ (by norm_num)⟩
  omega

theorem toBytes_getLast? (p : Packet) : p.toBytes.getLast? = some p.checksum := by
  have h : p.toBytes =
      (p.boot_code :: p.effective_length :: p.command :: p.packet_data) ++
        p.checksum :: [] := by
    simp [Packet.toBytes]
  rw [h, List.getLast?_append_cons]
  rfl

/-! ### Claim theorems -/

/-- C2: for every encoded frame
[boot_code, effective_length, command] ++ payload ++ [checksum], the sum of
all frame bytes including the checksum byte is congruent to 0 modulo 256. -/
theorem frame_bytes_sum_mod_256_eq_zero (p : Packet) : p.toBytes.sum % 256 = 0 := by
  rw [toBytes_sum, checksum_spec]
  exact byte_sum_complement_nat _

/-- C5, counterexample: the checksum of the frame Encode(0x40, 0x01, [0x04])
is 0xB8, not 0xB4 as the claim states. -/
theorem encode_example_checksum_ne_0xB4 :
    Packet.checksum ⟨0x40, 0x01, [0x04]⟩ = 0xB8 ∧ (0xB8 : Nat) ≠ 0xB4 := by
  decide

/-- C5 (amended): Encode(0x40, 0x01, [0x04]) produces exactly the five bytes
40 03 01 04 B8, and the checksum byte 0xB8 equals
((0x40 + 0x03 + 0x01 + 0x04) XOR 0xFF + 1) mod 256. -/
theorem encode_example_frame :
    Packet.toBytes ⟨0x40, 0x01, [0x04]⟩ = [0x40, 0x03, 0x01, 0x04, 0xB8] ∧
    Packet.checksum ⟨0x40, 0x01, [0x04]⟩ =
      (((0x40 + 0x03 + 0x01 + 0x04) ^^^ 0xFF) + 1) % 256 := by
  decide

/-- C1, counterexample: the claim quantifies over all boot codes, but the
frame produced by Encode with the outgoing boot code 0x40 is rejected by the
decoder with the wrong-boot-code error, so decoding does not succeed for
every boot_code. -/
theorem decode_encode_boot_code_0x40_fails :
    read_return_packet ⟨Packet.toBytes ⟨0x40, 0x01, [0x04]⟩, [], [], []⟩ =
      (⟨[0x03, 0x01, 0x04, 0xB8], [], [], []⟩, Except.error PError.wrongBootCode) := by
  rfl

/-- C1 (amended): for boot_code 0xF0 or 0xF4 and all command and payload of
length 0 to 253 (byte-valued), decoding the frame produced by
Encode(boot_code, command, payload) succeeds, yields a Packet with exactly
the input fields, leaves the warning log unchanged (the recomputed checksum
matches, so no mismatch warning fires), and the checksum byte in the frame
(its last byte) equals the recomputed checksum. -/
theorem decode_encode_roundtrip (bc cmd : Nat) (payload rest out : List Nat)
    (w e : List String) (hbc : bc = 0xF0 ∨ bc = 0xF4)
    (_hlen : payload.length ≤ 253) (_hcmd : cmd < 256) (_hpl : ∀ b ∈ payload, b < 256) :
    read_return_packet ⟨Packet.toBytes ⟨bc, cmd, payload⟩ ++ rest, out, w, e⟩ =
      (⟨rest, out, w, e⟩, Except.ok ⟨bc, cmd, payload⟩) ∧
    (Packet.toBytes ⟨bc, cmd, payload⟩).getLast? =
      some (Packet.checksum ⟨bc, cmd, payload⟩) :=
  ⟨read_return_packet_toBytes ⟨bc, cmd, payload⟩ rest out w e hbc,
   toBytes_getLast? ⟨bc, cmd, payload⟩⟩

/-- C1 witness: the round trip at boot code 0xF0, command 0x01,
payload [0x04]. -/
theorem decode_encode_roundtrip_witness :
    read_return_packet ⟨Packet.toBytes ⟨0xF0, 0x01, [0x04]⟩ ++ [], [], [], []⟩ =
      (⟨[], [], [], []⟩, Except.ok ⟨0xF0, 0x01, [0x04]⟩) ∧
    (Packet.toBytes ⟨0xF0, 0x01, [0x04]⟩).getLast? =
      some (Packet.checksum ⟨0xF0, 0x01, [0x04]⟩) :=
  decode_encode_roundtrip 0xF0 0x01 [0x04] [] [] [] []
    (Or.inl rfl) (by decide) (by decide) (by decide)

/-- C8: when the received checksum byte differs from the checksum recomputed
over the header and payload of the frame, decoding does not fail: it only
appends the checksum warning to the log and still returns the decoded
packet. -/
theorem checksum_mismatch_warns (p : Packet) (ck : Nat) (rest out : List Nat)
    (w e : List String) (hbc : p.boot_code = 0xF0 ∨ p.boot_code = 0xF4)
    (hck : p.checksum ≠ ck) :
    read_return_packet ⟨p.boot_code :: p.effective_length :: p.command ::
        (p.packet_data ++ ck :: rest), out, w, e⟩ =
      (⟨rest, out, w ++ ["Received wrong checksum! Data may be inconsistent!"], e⟩,
       Except.ok p) := by
  rw [read_return_packet_frame p ck rest out w e hbc]
  simp [hck]

/-- C8 witness: the frame F0 03 01 04 00 carries the wrong checksum byte
0x00 (the recomputed checksum is 0x08); decoding returns the packet and the
warning. -/
theorem checksum_mismatch_warns_witness :
    read_return_packet ⟨[0xF0, 0x03, 0x01, 0x04, 0x00], [], [], []⟩ =
      (⟨[], [], ["Received wrong checksum! Data may be inconsistent!"], []⟩,
       Except.ok ⟨0xF0, 0x01, [0x04]⟩) := by
  have h := checksum_mismatch_warns ⟨0xF0, 0x01, [0x04]⟩ 0 [] [] [] []
    (Or.inl rfl) (by decide)
  simpa using h

theorem read_return_packet_toBytes_nil (p : Packet) (out : List Nat)
    (w e : List String) (hbc : p.boot_code = 0xF0 ∨ p.boot_code = 0xF4) :
    read_return_packet ⟨p.toBytes, out, w, e⟩ = (⟨[], out, w, e⟩, Except.ok p) := by
  have h := read_return_packet_toBytes p [] out w e hbc
  simpa using h

theorem op_step (cmd : Nat) (param : List Nat) (p : Packet) (out : List Nat)
    (w e : List String) (hbc : p.boot_code = 0xF0 ∨ p.boot_code = 0xF4) :
    read_return_packet (send_command cmd param ⟨p.toBytes, out, w, e⟩) =
      (⟨[], out ++ Packet.toBytes ⟨0x40, cmd, param⟩, w, e⟩, Except.ok p) := by
  simp only [send_command, connWrite]
  exact read_return_packet_toBytes_nil p _ w e hbc

theorem connRead_output (n : Nat) (s : ConnState) :
    (connRead n s).1.output = s.output := by
  unfold connRead
  split <;> rfl

theorem readByte_output (s : ConnState) : (readByte s).1.output = s.output := by
  unfold readByte
  rcases h : connRead 1 s with ⟨s', r⟩
  have ho := connRead_output 1 s
  rw [h] at ho
  cases r <;> exact ho

theorem read_return_packet_output (s : ConnState) :
    (read_return_packet s).1.output = s.output := by
  unfold read_return_packet
  rcases h1 : readByte s with ⟨s1, r1⟩
  have o1 : s1.output = s.output := by
    have h := readByte_output s; rw [h1] at h; exact h
  cases r1 with
  | error err => exact o1
  | ok bc =>
    dsimp only
    split
    · exact o1
    · rcases h2 : readByte s1 with ⟨s2, r2⟩
      have o2 : s2.output = s1.output := by
        have h := readByte_output s1; rw [h2] at h; exact h
      cases r2 with
      | error err => rw [o2]; exact o1
      | ok el =>
        dsimp only
        rcases h3 : readByte s2 with ⟨s3, r3⟩
        have o3 : s3.output = s2.output := by
          have h := readByte_output s2; rw [h3] at h; exact h
        cases r3 with
        | error err => rw [o3, o2]; exact o1
        | ok cmd =>
          dsimp only
          rcases h4 : connRead (el - 2) s3 with ⟨s4, r4⟩
          have o4 : s4.output = s3.output := by
            have h := connRead_output (el - 2) s3; rw [h4] at h; exact h
          cases r4 with
          | error err => rw [o4, o3, o2]; exact o1
          | ok data =>
            dsimp only
            rcases h5 : readByte s4 with ⟨s5, r5⟩
            have o5 : s5.output = s4.output := by
              have h := readByte_output s4; rw [h5] at h; exact h
            cases r5 with
            | error err => rw [o5, o4, o3, o2]; exact o1
            | ok ck =>
              dsimp only
              split <;> simp [logWarning, o5, o4, o3, o2, o1]

theorem scan_tags_nil : scan_tags [] = [] := by
  rw [scan_tags]

theorem scan_tags_cons (num_words : Nat) (rest : List Nat) :
    scan_tags (num_words :: rest) =
      if 2 * num_words > rest.length then []
      else bytes_to_hex_string (rest.take (2 * num_words)) ::
           scan_tags (rest.drop (2 * num_words)) := by
  rw [scan_tags]

theorem scan_tags_record (num_words : Nat) (t rest : List Nat)
    (ht : t.length = 2 * num_words) :
    scan_tags (num_words :: (t ++ rest)) =
      bytes_to_hex_string t :: scan_tags rest := by
  rw [scan_tags_cons]
  have hle : ¬2 * num_words > (t ++ rest).length := by
    simp [List.length_append, ht]
  rw [if_neg hle, List.take_left' ht, List.drop_left' ht]

theorem scan_tags_truncated (num_words : Nat) (rest : List Nat)
    (h : rest.length < 2 * num_words) :
    scan_tags (num_words :: rest) = [] := by
  rw [scan_tags_cons, if_pos h]

theorem scan_tags_records_flat (recs : List (Nat × List Nat)) (tail : List Nat)
    (hrecs : ∀ p ∈ recs, (p.2 : List Nat).length = 2 * p.1) :
    scan_tags (records_flat recs tail) =
      recs.map (fun p => bytes_to_hex_string p.2) ++ scan_tags tail := by
  induction recs with
  | nil => simp [records_flat]
  | cons hd tl ih =>
    obtain ⟨num_words, t⟩ := hd
    have ht : t.length = 2 * num_words := hrecs (num_words, t) (List.mem_cons_self _ _)
    simp only [records_flat]
    rw [scan_tags_record num_words t _ ht,
      ih (fun p hp => hrecs p (List.mem_cons_of_mem _ hp))]
    simp

/-- C3: every list_tag_id response payload consisting of a total-count byte
n, any sequence of complete tag records (each a word count w with 2*w tag
bytes) and then a record whose declared end exceeds the remaining buffer
decodes, without error, to the total count together with exactly the tags
of the complete records in order, rendered as uppercase hex strings. -/
theorem list_tag_id_decode_truncated (n : Nat) (recs : List (Nat × List Nat))
    (num_words : Nat) (r : List Nat)
    (hrecs : ∀ p ∈ recs, (p.2 : List Nat).length = 2 * p.1)
    (htr : r.length < 2 * num_words) :
    list_tag_id_decode (n :: records_flat recs (num_words :: r)) =
      some (n, recs.map (fun p => bytes_to_hex_string p.2)) := by
  simp only [list_tag_id_decode]
  rw [scan_tags_records_flat recs _ hrecs, scan_tags_truncated num_words r htr,
    List.append_nil]

/-- C3 witness: total count 5, complete records AABB and CCDD, then a record
declaring 4 words with only one byte left: the decode is
(5, ["AABB", "CCDD"]). -/
theorem list_tag_id_decode_truncated_witness :
    list_tag_id_decode [5, 1, 0xAA, 0xBB, 1, 0xCC, 0xDD, 4, 0x01] =
      some (5, ["AABB", "CCDD"]) := by
  have h := list_tag_id_decode_truncated 5 [(1, [0xAA, 0xBB]), (1, [0xCC, 0xDD])]
    4 [0x01] (by decide) (by decide)
  exact h.trans (by decide)

theorem scan_tags_fuel_spec (fuel : Nat) :
    ∀ data : List Nat, data.length < fuel →
      scan_tags_fuel fuel data = some (scan_tags data) := by
  induction fuel with
  | zero => intro data h; omega
  | succ f ih =>
    intro data h
    match data with
    | [] => rw [scan_tags_nil]; rfl
    | num_words :: rest =>
      by_cases hb : 2 * num_words > rest.length
      · rw [scan_tags_truncated num_words rest hb]
        simp [scan_tags_fuel, hb]
      · have hlt : (rest.drop (2 * num_words)).length < f := by
          simp only [List.length_drop]
          simp only [List.length_cons] at h
          omega
        rw [scan_tags_cons, if_neg hb]
        simp only [scan_tags_fuel, if_neg hb]
        rw [ih (rest.drop (2 * num_words)) hlt]

/-- C10: the record-scanning loop of list_tag_id terminates on every finite
payload: with an iteration budget exceeding the payload length the loop
finishes (so it never loops forever, each iteration consuming at least the
word-count byte), a record with word count 0 yields the empty tag string and
scanning continues past it, and every nonempty payload produces a
(total_count, partial_tag_list) result. -/
theorem scan_loop_terminates :
    (∀ (data : List Nat) (fuel : Nat), data.length < fuel →
      scan_tags_fuel fuel data = some (scan_tags data)) ∧
    (∀ rest : List Nat, scan_tags (0 :: rest) = "" :: scan_tags rest) ∧
    (∀ data : List Nat, data ≠ [] →
      ∃ total tags, list_tag_id_decode data = some (total, tags)) := by
  refine ⟨fun data fuel h => scan_tags_fuel_spec fuel data h, fun rest => ?_, ?_⟩
  · rw [scan_tags_cons]
    simp only [Nat.mul_zero, gt_iff_lt, Nat.not_lt_zero, if_false, List.take_zero,
      List.drop_zero]
    rfl
  · intro data hne
    match data with
    | [] => exact absurd rfl hne
    | n :: rest => exact ⟨n, scan_tags rest, rfl⟩

/-- C10 witness: with budget 5 the loop finishes on the 4-byte payload
containing a zero-word record, and the zero-word record yields the empty
string. -/
theorem scan_loop_terminates_witness :
    scan_tags_fuel 5 [0, 1, 0xAB, 0xCD] = some (scan_tags [0, 1, 0xAB, 0xCD]) ∧
    scan_tags (0 :: [1, 0xAB, 0xCD]) = "" :: scan_tags [1, 0xAB, 0xCD] ∧
    ∃ total tags, list_tag_id_decode [0, 1, 0xAB, 0xCD] = some (total, tags) :=
  ⟨scan_loop_terminates.1 [0, 1, 0xAB, 0xCD] 5 (by decide),
   scan_loop_terminates.2.1 [1, 0xAB, 0xCD],
   scan_loop_terminates.2.2 [0, 1, 0xAB, 0xCD] (by decide)⟩

theorem and_one_testBit (b : Nat) : (b &&& 1 != 0) = b.testBit 0 := by
  simp [Nat.testBit, Nat.and_comm]

theorem and_two_testBit (b : Nat) : (b &&& 2 != 0) = b.testBit 1 := by
  have h : b &&& 2 = (b.testBit 1).toNat * 2 := by
    have h2 := Nat.and_two_pow b 1
    simpa using h2
  rw [h]
  cases hb : b.testBit 1 <;> simp

/-- C6, counterexample: on a response whose payload has only 2 bytes,
get_reader_version does not fail: it returns normally (the ok result None,
the Python bare return), merely logging the invalid-payload message at
error level, so the call does not fail with InvalidResponsePayload as the
claim states. -/
theorem get_reader_version_short_payload_returns_normally :
    (get_reader_version ⟨Packet.toBytes ⟨0xF0, 0x02, [7, 8]⟩, [], [], []⟩).2 =
      Except.ok none ∧
    (get_reader_version ⟨Packet.toBytes ⟨0xF0, 0x02, [7, 8]⟩, [], [], []⟩).1.errorLog =
      ["get_reader_version(): packet data invalid"] := by
  constructor <;> rfl

/-- C6 (amended): a get_reader_version response whose payload has fewer
than 4 bytes makes the call log the invalid-payload message at error level
and return None - no parsed result, but a normal return, not a raised
error; a payload of at least 4 bytes yields
((hw_major, hw_minor), (sw_major, sw_minor)) from the first four payload
bytes in order. -/
theorem get_reader_version_payload_contract (p : Packet) (out : List Nat)
    (w e : List String) (hbc : p.boot_code = 0xF0 ∨ p.boot_code = 0xF4) :
    (p.packet_data.length < 4 →
      (get_reader_version ⟨p.toBytes, out, w, e⟩).2 = Except.ok none ∧
      (get_reader_version ⟨p.toBytes, out, w, e⟩).1.errorLog =
        e ++ ["get_reader_version(): packet data invalid"]) ∧
    (4 ≤ p.packet_data.length →
      (get_reader_version ⟨p.toBytes, out, w, e⟩).2 =
        Except.ok (some ((p.packet_data.getD 0 0, p.packet_data.getD 1 0),
                         (p.packet_data.getD 2 0, p.packet_data.getD 3 0))) ∧
      (get_reader_version ⟨p.toBytes, out, w, e⟩).1.errorLog = e) := by
  have hstep := op_step 0x02 [] p out w e hbc
  unfold get_reader_version
  dsimp only
  rw [hstep]
  dsimp only
  constructor
  · intro hlen
    rw [if_pos hlen]
    refine ⟨rfl, ?_⟩
    simp only [logError, logWarning]
    split <;> rfl
  · intro hlen
    rw [if_neg (by omega)]
    refine ⟨rfl, ?_⟩
    split <;> rfl

/-- C6 witness: a 2-byte payload [7, 8] in the response makes
get_reader_version return none and log the invalid-payload error. -/
theorem get_reader_version_payload_contract_witness :
    (get_reader_version ⟨Packet.toBytes ⟨0xF0, 0x02, [7, 8]⟩, [], [], []⟩).2 =
      Except.ok none ∧
    (get_reader_version ⟨Packet.toBytes ⟨0xF0, 0x02, [7, 8]⟩, [], [], []⟩).1.errorLog =
      [] ++ ["get_reader_version(): packet data invalid"] :=
  (get_reader_version_payload_contract ⟨0xF0, 0x02, [7, 8]⟩ [] [] []
    (Or.inl rfl)).1 (by decide)

/-- C7: each of the nine listed baud rates maps to its documented one-byte
code, a listed rate puts exactly that code as the request payload byte of
the written frame, and any unlisted rate fails with the invalid-baudrate
RuntimeError while leaving the connection state untouched (no write). -/
theorem set_baud_rate_table :
    (baud_rate_param 600 = Except.ok 0x00 ∧ baud_rate_param 1200 = Except.ok 0x01 ∧
     baud_rate_param 2400 = Except.ok 0x02 ∧ baud_rate_param 4800 = Except.ok 0x03 ∧
     baud_rate_param 9600 = Except.ok 0x04 ∧ baud_rate_param 19200 = Except.ok 0x05 ∧
     baud_rate_param 38400 = Except.ok 0x06 ∧ baud_rate_param 57600 = Except.ok 0x07 ∧
     baud_rate_param 115200 = Except.ok 0x08) ∧
    (∀ (r c : Nat) (s : ConnState), baud_rate_param r = Except.ok c →
      (set_baud_rate r s).1.output = s.output ++ Packet.toBytes ⟨0x40, 0x01, [c]⟩) ∧
    (∀ r : Nat,
      r ∉ ([600, 1200, 2400, 4800, 9600, 19200, 38400, 57600, 115200] : List Nat) →
      ∀ s : ConnState,
        set_baud_rate r s = (s, Except.error (PError.runtimeError "Invalid baudrate"))) := by
  refine ⟨⟨rfl, rfl, rfl, rfl, rfl, rfl, rfl, rfl, rfl⟩, ?_, ?_⟩
  · intro r c s hr
    unfold set_baud_rate
    rw [hr]
    dsimp only
    rcases h : read_return_packet (send_command 0x01 [c] s) with ⟨s', res⟩
    have ho : s'.output = (send_command 0x01 [c] s).output := by
      have h2 := read_return_packet_output (send_command 0x01 [c] s)
      rw [h] at h2; exact h2
    have hsend : (send_command 0x01 [c] s).output =
        s.output ++ Packet.toBytes ⟨0x40, 0x01, [c]⟩ := rfl
    cases res with
    | error err => rw [ho]; exact hsend
    | ok packet =>
      dsimp only
      split
      · rw [ho]; exact hsend
      · rw [ho]; exact hsend
  · intro r hr s
    simp only [List.mem_cons, List.not_mem_nil, or_false, not_or] at hr
    obtain ⟨h1, h2, h3, h4, h5, h6, h7, h8, h9⟩ := hr
    have hnp : baud_rate_param r =
        Except.error (PError.runtimeError "Invalid baudrate") := by
      simp [baud_rate_param, h1, h2, h3, h4, h5, h6, h7, h8, h9]
    unfold set_baud_rate
    rw [hnp]

/-- C7 witness: the unlisted rate 601 fails with the invalid-baudrate error
and leaves the connection state unchanged. -/
theorem set_baud_rate_table_witness :
    set_baud_rate 601 ⟨[], [], [], []⟩ =
      (⟨[], [], [], []⟩, Except.error (PError.runtimeError "Invalid baudrate")) :=
  set_baud_rate_table.2.2 601 (by decide) ⟨[], [], [], []⟩

/-- C9: get_relay writes a request frame with command 0x0B and empty
payload, validates the response against command 0x08 (failing with the
wrong-packet RuntimeError otherwise), and decodes a 1-byte response payload
as relay1 = bit 0 and relay2 = bit 1 of that byte. -/
theorem get_relay_contract :
    (∀ s : ConnState,
      (get_relay s).1.output = s.output ++ Packet.toBytes ⟨0x40, 0x0B, []⟩) ∧
    (∀ (p : Packet) (out : List Nat) (w e : List String),
      (p.boot_code = 0xF0 ∨ p.boot_code = 0xF4) →
      (p.command ≠ 0x08 →
        (get_relay ⟨p.toBytes, out, w, e⟩).2 =
          Except.error (PError.runtimeError "Received wrong packet for answer")) ∧
      (∀ b : Nat, p.command = 0x08 → p.packet_data = [b] →
        (get_relay ⟨p.toBytes, out, w, e⟩).2 =
          Except.ok (b.testBit 0, b.testBit 1))) := by
  constructor
  · intro s
    unfold get_relay
    dsimp only
    rcases h : read_return_packet (send_command 0x0B [] s) with ⟨s', res⟩
    have ho : s'.output = (send_command 0x0B [] s).output := by
      have h2 := read_return_packet_output (send_command 0x0B [] s)
      rw [h] at h2; exact h2
    have hsend : (send_command 0x0B [] s).output =
        s.output ++ Packet.toBytes ⟨0x40, 0x0B, []⟩ := rfl
    cases res with
    | error err => rw [ho]; exact hsend
    | ok packet =>
      dsimp only
      split
      · rw [ho]; exact hsend
      · split
        · rw [ho]; exact hsend
        · rw [ho]; exact hsend
  · intro p out w e hbc
    have hstep := op_step 0x0B [] p out w e hbc
    constructor
    · intro hcmd
      unfold get_relay
      dsimp only
      rw [hstep]
      dsimp only
      rw [if_pos hcmd]
    · intro b hcmd hdata
      unfold get_relay
      dsimp only
      rw [hstep]
      dsimp only
      rw [hdata]
      simp [hcmd, and_one_testBit, and_two_testBit]
      by_cases hb : b % 2 = 1 <;> simp [hb]

/-- C9 witness: a response packet with command 0x08 and payload byte 0x03
decodes to both relays on (bits 0 and 1 set). -/
theorem get_relay_contract_witness :
    (get_relay ⟨Packet.toBytes ⟨0xF0, 0x08, [3]⟩, [], [], []⟩).2 =
      Except.ok (true, true) :=
  ((get_relay_contract.2 ⟨0xF0, 0x08, [3]⟩ [] [] [] (Or.inl rfl)).2
    3 rfl rfl).trans (by rfl)

/-- C4, counterexample: get_reader_version, given a response whose command
code 0x03 differs from the request command 0x02, only logs a warning and
still returns the parsed version tuple to the caller, so not every
implemented operation fails on a command mismatch. -/
theorem get_reader_version_mismatch_returns_result :
    (get_reader_version ⟨Packet.toBytes ⟨0xF0, 0x03, [1, 2, 3, 4]⟩, [], [], []⟩).2 =
      Except.ok (some ((1, 2), (3, 4))) ∧
    (get_reader_version ⟨Packet.toBytes ⟨0xF0, 0x03, [1, 2, 3, 4]⟩, [], [], []⟩).1.warnings =
      ["get_reader_version(): received invalid return command"] := by
  constructor <;> rfl

/-- C4 (amended): every implemented catalog operation except
get_reader_version fails with a RuntimeError (the UnexpectedResponse of the
spec taxonomy) and returns no parsed result when the decoded response
command differs from its expected response command (the request command,
except get_relay, which expects 0x08); get_reader_version instead only
warns on the mismatch and still returns its parsed result. -/
theorem ops_mismatch_fail (p : Packet) (out : List Nat) (w e : List String)
    (hbc : p.boot_code = 0xF0 ∨ p.boot_code = 0xF4) :
    (p.command ≠ 0x01 → (set_baud_rate 9600 ⟨p.toBytes, out, w, e⟩).2 =
      Except.error (PError.runtimeError "Received wrong answer")) ∧
    (p.command ≠ 0x03 → (set_relay true false ⟨p.toBytes, out, w, e⟩).2 =
      Except.error (PError.runtimeError "Set Relay command failed")) ∧
    (p.command ≠ 0x08 → (get_relay ⟨p.toBytes, out, w, e⟩).2 =
      Except.error (PError.runtimeError "Received wrong packet for answer")) ∧
    (p.command ≠ 0x06 → (read_param ⟨p.toBytes, out, w, e⟩).2 =
      Except.error (PError.runtimeError "Received invalid packet")) ∧
    (p.command ≠ 0x09 → (set_param (List.replicate 32 0) ⟨p.toBytes, out, w, e⟩).2 =
      Except.error (PError.runtimeError "Received invalid packet")) ∧
    (p.command ≠ 0x0A → (select_antenna 0 ⟨p.toBytes, out, w, e⟩).2 =
      Except.error (PError.runtimeError "Received invalid packet")) ∧
    (p.command ≠ 0x0E → (restore_factory_settings ⟨p.toBytes, out, w, e⟩).2 =
      Except.error (PError.runtimeError "Received invalid packet")) ∧
    (p.command ≠ 0x0F → (set_auto_mode true ⟨p.toBytes, out, w, e⟩).2 =
      Except.error (PError.runtimeError "Received invalid packet")) ∧
    (p.command ≠ 0x10 → (clear_memory ⟨p.toBytes, out, w, e⟩).2 =
      Except.error (PError.runtimeError "Received invalid packet")) ∧
    (p.command ≠ 0xEE → (list_tag_id 1 0 0 [] ⟨p.toBytes, out, w, e⟩).2 =
      Except.error (PError.runtimeError "Received invalid return")) ∧
    (p.command ≠ 0x02 → 4 ≤ p.packet_data.length →
      (get_reader_version ⟨p.toBytes, out, w, e⟩).2 =
        Except.ok (some ((p.packet_data.getD 0 0, p.packet_data.getD 1 0),
                         (p.packet_data.getD 2 0, p.packet_data.getD 3 0)))) := by
  refine ⟨?_, ?_, ?_, ?_, ?_, ?_, ?_, ?_, ?_, ?_, ?_⟩
  · intro h
    unfold set_baud_rate
    rw [show baud_rate_param 9600 = Except.ok 0x04 from rfl]
    dsimp only
    rw [op_step _ _ p out w e hbc]
    dsimp only
    rw [if_pos h]
  · intro h
    unfold set_relay
    dsimp only
    rw [op_step _ _ p out w e hbc]
    dsimp only
    rw [if_pos h]
  · intro h
    unfold get_relay
    dsimp only
    rw [op_step _ _ p out w e hbc]
    dsimp only
    rw [if_pos h]
  · intro h
    unfold read_param
    dsimp only
    rw [op_step _ _ p out w e hbc]
    dsimp only
    rw [if_pos h]
  · intro h
    unfold set_param
    dsimp only
    rw [op_step _ _ p out w e hbc]
    dsimp only
    rw [if_pos h]
  · intro h
    unfold select_antenna
    dsimp only
    rw [op_step _ _ p out w e hbc]
    dsimp only
    rw [if_pos h]
  · intro h
    unfold restore_factory_settings
    dsimp only
    rw [op_step _ _ p out w e hbc]
    dsimp only
    rw [if_pos h]
  · intro h
    unfold set_auto_mode
    dsimp only
    rw [op_step _ _ p out w e hbc]
    dsimp only
    rw [if_pos h]
  · intro h
    unfold clear_memory
    dsimp only
    rw [op_step _ _ p out w e hbc]
    dsimp only
    rw [if_pos h]
  · intro h
    unfold list_tag_id
    dsimp only
    rw [op_step _ _ p out w e hbc]
    dsimp only
    rw [if_pos h]
  · intro h hlen
    unfold get_reader_version
    dsimp only
    rw [op_step _ _ p out w e hbc]
    dsimp only
    rw [if_neg (by omega)]

/-- C4 witness: a response packet carrying the unexpected command 0x55
makes set_baud_rate fail with the wrong-answer RuntimeError. -/
theorem ops_mismatch_fail_witness :
    (set_baud_rate 9600 ⟨Packet.toBytes ⟨0xF0, 0x55, [1, 2, 3, 4]⟩, [], [], []⟩).2 =
      Except.error (PError.runtimeError "Received wrong answer") :=
  (ops_mismatch_fail ⟨0xF0, 0x55, [1, 2, 3, 4]⟩ [] [] [] (Or.inl rfl)).1 (by decide)

end VF747
